import Mathlib

/-!
Shallow embedding of the hardware-shop ERP backend (`main.py`, `schemas.py`).

Modelling conventions:
* Python `float` quantities are modelled as exact rationals (`ℚ`);
  `round(x, 2)` is modelled as exact round-half-to-even at 2 decimal places.
* MongoDB documents are modelled as Lean structures.  Fields read back with
  `dict.get` (which may be absent in a schemaless store) are `Option`-typed;
  `dict.get(k, d)` becomes `(·.k).getD d`.
* The mutable database is a `Store` record threaded explicitly through the
  request handlers; `create_document` appends `(generated id, document)` to
  the collection list and bumps the id counter.
* `datetime.utcnow()` (real time) is outside the embedding: the `date` field
  of stock movements is not modelled, no claim depends on it.
* `HTTPException` is modelled as the error branch of `Except Err`.
-/

namespace ERP

/-- An HTTP error raised by a handler (`raise HTTPException(status, detail)`). -/
structure Err where
  status : Nat
  detail : String
deriving DecidableEq, Repr

/-- Pydantic model `schemas.Item`.  `category`/`barcode` are `Optional`. -/
structure Item where
  name : String
  sku : String
  category : Option String := none
  unit : String := "pcs"
  tax_rate : ℚ := 0
  cost_price : ℚ := 0
  sale_price : ℚ := 0
  reorder_level : Nat := 0
  opening_stock : ℚ := 0
  barcode : Option String := none
  is_active : Bool := true
deriving DecidableEq, Repr

/-- Pydantic model `schemas.PurchaseItem`: one line of a purchase. -/
structure PurchaseItem where
  item_id : String
  qty : ℚ
  cost : ℚ
  tax_rate : ℚ := 0
  discount : ℚ := 0
deriving DecidableEq, Repr

/-- Pydantic model `schemas.Purchase` (the `bill_date` datetime field is not modelled). -/
structure Purchase where
  vendor_id : String
  bill_number : Option String := none
  items : List PurchaseItem
  other_charges : ℚ := 0
  notes : Option String := none
  payment_status : String := "unpaid"
deriving DecidableEq, Repr

/-- Pydantic model `schemas.SaleItem`: one line of a sale. -/
structure SaleItem where
  item_id : String
  qty : ℚ
  price : ℚ
  discount : ℚ := 0
  tax_rate : ℚ := 0
deriving DecidableEq, Repr

/-- Pydantic model `schemas.Sale` (the `invoice_date` datetime field is not modelled). -/
structure Sale where
  customer_id : Option String := none
  invoice_number : Option String := none
  items : List SaleItem
  other_charges : ℚ := 0
  notes : Option String := none
  payment_status : String := "unpaid"
deriving DecidableEq, Repr

/-- A stock-movement document as stored (and as read back by `stock_report`
via `m.get(...)`): every field may be absent in a schemaless store, hence
`Option`.  Movements written by the handlers have every field populated.
The `date` field (wall-clock time) is not modelled. -/
structure MovementDoc where
  item_id : Option String
  type : Option String
  qty : Option ℚ
  reason : Option String := none
  ref_type : Option String := none
  ref_id : Option String := none
deriving DecidableEq, Repr

/-- An item document as read back by `stock_report`: `id` is `str(it["_id"])`
(always present for a stored document); the remaining fields are read with
`it.get(...)` and may be absent. -/
structure ItemDoc where
  id : String
  name : Option String
  sku : Option String
  opening_stock : Option ℚ
  unit : Option String
deriving DecidableEq, Repr

/-- One row of the `/stock` report. -/
structure ReportRow where
  item_id : String
  name : Option String
  sku : Option String
  on_hand : ℚ
  unit : String
deriving DecidableEq, Repr

/-- The database: one list per collection that the verified claims touch
(vendor/customer/payment collections carry no business rule), in insertion
order, plus the id-generation counter. -/
structure Store where
  items : List (String × Item) := []
  purchases : List (String × Purchase) := []
  sales : List (String × Sale) := []
  movements : List (String × MovementDoc) := []
  nextId : Nat := 0
deriving DecidableEq, Repr

/-- Generated document identifiers (Mongo `ObjectId`s, opaque strings).
Successive calls to `create_document` yield distinct, non-empty ids. -/
def genId (n : Nat) : String := "id" ++ toString n

/-- A hexadecimal digit, as accepted by the `ObjectId` constructor. -/
def isHexChar (c : Char) : Bool :=
  c.isDigit || (('a' ≤ c && c ≤ 'f') || ('A' ≤ c && c ≤ 'F'))

/-- Whether a string is a well-formed `ObjectId`: 24 hex characters. -/
def isValidOid (s : String) : Bool :=
  s.length = 24 && s.toList.all isHexChar

/-- Helper `main.to_oid`: validate an id string, raising HTTP 400 on a malformed id.
(Defined in `main.py` but invoked by no request handler.) -/
def to_oid (s : String) : Except Err String :=
  if isValidOid s then .ok s else .error ⟨400, "Invalid id"⟩

/-- Handler for `POST /items` (`main.create_item`): reject a duplicate SKU with
HTTP 400, otherwise persist the item and return the generated id. -/
def create_item (st : Store) (payload : Item) : Except Err (Store × String) :=
  if st.items.any (fun kv => kv.2.sku == payload.sku) then
    .error ⟨400, "SKU already exists"⟩
  else
    .ok ({ st with items := st.items ++ [(genId st.nextId, payload)],
                   nextId := st.nextId + 1 },
         genId st.nextId)

/-- Handler for `POST /purchases` (`main.create_purchase`): persist the purchase, then
create one `"in"` stock movement per line, in line order; never fails. -/
def create_purchase (st : Store) (payload : Purchase) : Store × String :=
  let purchase_id := genId st.nextId
  let st1 : Store :=
    { st with purchases := st.purchases ++ [(purchase_id, payload)],
              nextId := st.nextId + 1 }
  let st2 := payload.items.foldl (fun s line =>
    { s with
      movements := s.movements ++
        [(genId s.nextId,
          { item_id := some line.item_id, type := some "in",
            qty := some line.qty, reason := some "purchase",
            ref_type := some "purchase", ref_id := some purchase_id })],
      nextId := s.nextId + 1 }) st1
  (st2, purchase_id)

/-- Handler for `POST /sales` (`main.create_sale`): persist the sale, then create one
`"out"` stock movement per line, in line order; never fails. -/
def create_sale (st : Store) (payload : Sale) : Store × String :=
  let sale_id := genId st.nextId
  let st1 : Store :=
    { st with sales := st.sales ++ [(sale_id, payload)],
              nextId := st.nextId + 1 }
  let st2 := payload.items.foldl (fun s line =>
    { s with
      movements := s.movements ++
        [(genId s.nextId,
          { item_id := some line.item_id, type := some "out",
            qty := some line.qty, reason := some "sale",
            ref_type := some "sale", ref_id := some sale_id })],
      nextId := s.nextId + 1 }) st1
  (st2, sale_id)

/-- Round half to even at integer precision, the behaviour of Python's
built-in `round` on the exact decimal values arising here. -/
def roundHalfEven (q : ℚ) : ℤ :=
  if q - ⌊q⌋ < 1/2 then ⌊q⌋
  else if 1/2 < q - ⌊q⌋ then ⌊q⌋ + 1
  else if ⌊q⌋ % 2 = 0 then ⌊q⌋ else ⌊q⌋ + 1

/-- Model of Python `round(q, 2)`: round to two decimal places. -/
def round2 (q : ℚ) : ℚ := (roundHalfEven (q * 100) : ℚ) / 100

/-- Pointwise update of the `qty_map` (`qty_map[k] = v`).  All reads in the
source go through `qty_map.get(key, 0)`, so the dict is modelled as a total
function defaulting to `0`. -/
def updMap (q : String → ℚ) (k : String) (v : ℚ) : String → ℚ :=
  fun k' => if k' = k then v else q k'

/-- The body of the movement loop of `main.stock_report`: skip a falsy
`item_id` (`None` or `""`), add `qty` on `type == "in"`, subtract on
`type == "out"`, ignore any other type.  (The source's
`str(...) if isinstance(..., ObjectId) else ...` normalisation is the
identity here, ids being strings in the embedding.) -/
def applyMove (q : String → ℚ) (m : MovementDoc) : String → ℚ :=
  match m.item_id with
  | none => q
  | some k =>
    if k = "" then q
    else if m.type = some "in" then updMap q k (q k + m.qty.getD 0)
    else if m.type = some "out" then updMap q k (q k - m.qty.getD 0)
    else q

/-- Handler for `GET /stock` (`main.stock_report`), as a function of the item and
movement documents: seed the map with each item's opening stock, fold the
movements, emit one row per item in item order with `on_hand` rounded to
2 decimal places. -/
def stock_report (items : List ItemDoc) (movements : List MovementDoc) :
    List ReportRow :=
  let qty0 : String → ℚ :=
    items.foldl (fun q it => updMap q it.id (it.opening_stock.getD 0))
      (fun _ => 0)
  let qty : String → ℚ := movements.foldl applyMove qty0
  items.map (fun it =>
    { item_id := it.id, name := it.name, sku := it.sku,
      on_hand := round2 (qty it.id), unit := it.unit.getD "pcs" })

/-- The item documents of a store, as `stock_report` reads them back. -/
def storeItemDocs (st : Store) : List ItemDoc :=
  st.items.map (fun kv =>
    { id := kv.1, name := some kv.2.name, sku := some kv.2.sku,
      opening_stock := some kv.2.opening_stock, unit := some kv.2.unit })

/-- The movement documents of a store, in insertion order. -/
def storeMovementDocs (st : Store) : List MovementDoc :=
  st.movements.map Prod.snd

/-- Handler for `GET /stock` against a store state. -/
def stock_report_endpoint (st : Store) : List ReportRow :=
  stock_report (storeItemDocs st) (storeMovementDocs st)

/-- Total quantity of `"in"` movements for key `k`. -/
def sumIn (k : String) : List MovementDoc → ℚ
  | [] => 0
  | m :: ms =>
    (if m.item_id = some k ∧ m.type = some "in" then m.qty.getD 0 else 0)
      + sumIn k ms

/-- Total quantity of `"out"` movements for key `k`. -/
def sumOut (k : String) : List MovementDoc → ℚ
  | [] => 0
  | m :: ms =>
    (if m.item_id = some k ∧ m.type = some "out" then m.qty.getD 0 else 0)
      + sumOut k ms

/-! ### Helper lemmas -/

lemma applyMove_at (q : String → ℚ) (m : MovementDoc) (k : String)
    (hk : k ≠ "") :
    applyMove q m k
      = q k + (if m.item_id = some k ∧ m.type = some "in" then m.qty.getD 0 else 0)
            - (if m.item_id = some k ∧ m.type = some "out" then m.qty.getD 0 else 0) := by
  rcases hm : m.item_id with _ | k'
  · simp [applyMove, hm]
  · simp only [applyMove, hm, updMap, Option.some.injEq]
    split_ifs <;> simp_all [updMap]
    all_goals (intro h; exact absurd h.symm (by assumption))

lemma foldl_applyMove (k : String) (hk : k ≠ "") :
    ∀ (ms : List MovementDoc) (q : String → ℚ),
      (ms.foldl applyMove q) k = q k + sumIn k ms - sumOut k ms := by
  intro ms
  induction ms with
  | nil => intro q; simp [sumIn, sumOut]
  | cons m ms ih =>
    intro q
    rw [List.foldl_cons, ih, applyMove_at q m k hk]
    simp only [sumIn, sumOut]
    ring

lemma foldl_opening_of_not_mem :
    ∀ (items : List ItemDoc) (q : String → ℚ) (k : String),
      (∀ it ∈ items, it.id ≠ k) →
      (items.foldl (fun q it => updMap q it.id (it.opening_stock.getD 0)) q) k
        = q k := by
  intro items
  induction items with
  | nil => intro q k _; rfl
  | cons a items ih =>
    intro q k h
    rw [List.foldl_cons, ih _ k (fun x hx => h x (List.mem_cons_of_mem _ hx))]
    have ha := h a (List.mem_cons_self _ _)
    simp only [updMap]
    rw [if_neg (fun hh => ha hh.symm)]

lemma foldl_opening_of_mem :
    ∀ (items : List ItemDoc) (q : String → ℚ) (it : ItemDoc),
      it ∈ items → (items.map ItemDoc.id).Nodup →
      (items.foldl (fun q it => updMap q it.id (it.opening_stock.getD 0)) q) it.id
        = it.opening_stock.getD 0 := by
  intro items
  induction items with
  | nil => intro q it h; cases h
  | cons a items ih =>
    intro q it hmem hnd
    simp only [List.map_cons, List.nodup_cons] at hnd
    rw [List.foldl_cons]
    rcases List.mem_cons.mp hmem with h | h
    · subst h
      have hnot : ∀ x ∈ items, x.id ≠ it.id := by
        intro x hx heq
        exact hnd.1 (heq ▸ List.mem_map_of_mem ItemDoc.id hx)
      rw [foldl_opening_of_not_mem items _ it.id hnot]
      simp [updMap]
    · exact ih _ it h hnd.2

/-- Row of the report for an item `it`, given distinct item ids: the item's
opening stock plus its total `"in"` minus its total `"out"` quantities,
rounded to 2 decimal places. -/
lemma row_mem_stock_report (items : List ItemDoc) (ms : List MovementDoc)
    (it : ItemDoc) (hmem : it ∈ items)
    (hnd : (items.map ItemDoc.id).Nodup) (hne : it.id ≠ "") :
    ({ item_id := it.id, name := it.name, sku := it.sku,
       on_hand := round2 (it.opening_stock.getD 0 + sumIn it.id ms - sumOut it.id ms),
       unit := it.unit.getD "pcs" } : ReportRow) ∈ stock_report items ms := by
  have hq : (ms.foldl applyMove
      (items.foldl (fun q i => updMap q i.id (i.opening_stock.getD 0))
        (fun _ => 0))) it.id
      = it.opening_stock.getD 0 + sumIn it.id ms - sumOut it.id ms := by
    rw [foldl_applyMove it.id hne, foldl_opening_of_mem items _ it hmem hnd]
  simp only [stock_report]
  refine List.mem_map.mpr ⟨it, hmem, ?_⟩
  rw [hq]

/-! ### Claims -/

/-- C1.  Stock conservation: for an item with opening stock `O` whose `"in"`
movements sum to `I` and whose `"out"` movements sum to `T`, the stock report
contains that item's row with `on_hand = round2 (O + I - T)`. -/
theorem stock_conservation (items : List ItemDoc) (ms : List MovementDoc)
    (it : ItemDoc) (hmem : it ∈ items)
    (hnd : (items.map ItemDoc.id).Nodup) (hne : it.id ≠ "") :
    ({ item_id := it.id, name := it.name, sku := it.sku,
       on_hand := round2 (it.opening_stock.getD 0 + sumIn it.id ms - sumOut it.id ms),
       unit := it.unit.getD "pcs" } : ReportRow) ∈ stock_report items ms :=
  row_mem_stock_report items ms it hmem hnd hne

/-- Concrete item document used by the stock-conservation witness. -/
def w1Item : ItemDoc :=
  { id := "a", name := some "Nut", sku := some "N1",
    opening_stock := some 10, unit := some "pcs" }

/-- Concrete movement list used by the stock-conservation witness:
one purchase of 5 and one sale of 3 for item `"a"`. -/
def w1Moves : List MovementDoc :=
  [ { item_id := some "a", type := some "in", qty := some 5,
      reason := some "purchase", ref_type := some "purchase",
      ref_id := some "p1" },
    { item_id := some "a", type := some "out", qty := some 3,
      reason := some "sale", ref_type := some "sale", ref_id := some "s1" } ]

/-- Witness for C1 at a concrete input: opening 10, in 5, out 3. -/
theorem stock_conservation_witness :
    w1Item ∈ [w1Item] ∧ ([w1Item].map ItemDoc.id).Nodup ∧ w1Item.id ≠ ""
    ∧ ({ item_id := w1Item.id, name := w1Item.name, sku := w1Item.sku,
         on_hand := round2 (w1Item.opening_stock.getD 0
           + sumIn w1Item.id w1Moves - sumOut w1Item.id w1Moves),
         unit := w1Item.unit.getD "pcs" } : ReportRow)
        ∈ stock_report [w1Item] w1Moves :=
  ⟨by decide, by decide, by decide,
   stock_conservation [w1Item] w1Moves w1Item (by decide) (by decide) (by decide)⟩

lemma foldl_addMovement_moves {α : Type} (mk : α → MovementDoc) :
    ∀ (lines : List α) (s : Store),
      ((lines.foldl (fun s line =>
          { s with movements := s.movements ++ [(genId s.nextId, mk line)],
                   nextId := s.nextId + 1 }) s).movements).map Prod.snd
        = s.movements.map Prod.snd ++ lines.map mk := by
  intro lines
  induction lines with
  | nil => intro s; simp
  | cons l lines ih =>
    intro s
    rw [List.foldl_cons, ih]
    simp

lemma foldl_addMovement_invariant {α : Type} (mk : α → MovementDoc) :
    ∀ (lines : List α) (s : Store),
      (lines.foldl (fun s line =>
          { s with movements := s.movements ++ [(genId s.nextId, mk line)],
                   nextId := s.nextId + 1 }) s).items = s.items
      ∧ (lines.foldl (fun s line =>
          { s with movements := s.movements ++ [(genId s.nextId, mk line)],
                   nextId := s.nextId + 1 }) s).purchases = s.purchases
      ∧ (lines.foldl (fun s line =>
          { s with movements := s.movements ++ [(genId s.nextId, mk line)],
                   nextId := s.nextId + 1 }) s).sales = s.sales := by
  intro lines
  induction lines with
  | nil => intro s; exact ⟨rfl, rfl, rfl⟩
  | cons l lines ih =>
    intro s
    rw [List.foldl_cons]
    exact ih _

/-- C2.  Movement-count invariant: recording a purchase with `N` lines
appends exactly `N` movement documents, one per line in line order, each
with the line's `item_id` and `qty`, `type = "in"`, `reason = "purchase"`,
`ref_type = "purchase"` and `ref_id` the created purchase's id; recording a
sale is symmetric with `type = "out"`, `reason = "sale"`,
`ref_type = "sale"`. -/
theorem movement_count_invariant :
    (∀ (st : Store) (p : Purchase),
      ((create_purchase st p).1.movements).map Prod.snd
        = st.movements.map Prod.snd
          ++ p.items.map (fun line =>
               { item_id := some line.item_id, type := some "in",
                 qty := some line.qty, reason := some "purchase",
                 ref_type := some "purchase",
                 ref_id := some (create_purchase st p).2 }))
    ∧ (∀ (st : Store) (s : Sale),
      ((create_sale st s).1.movements).map Prod.snd
        = st.movements.map Prod.snd
          ++ s.items.map (fun line =>
               { item_id := some line.item_id, type := some "out",
                 qty := some line.qty, reason := some "sale",
                 ref_type := some "sale",
                 ref_id := some (create_sale st s).2 })) := by
  constructor
  · intro st p
    simp only [create_purchase]
    rw [foldl_addMovement_moves]
  · intro st s
    simp only [create_sale]
    rw [foldl_addMovement_moves]

/-- C4.  The stock report is total and is driven by the item set: it always
produces exactly one row per item, in item order, whatever the movements
are (movements whose `item_id` matches no item yield no row). -/
theorem stock_report_one_row_per_item (items : List ItemDoc)
    (ms : List MovementDoc) :
    (stock_report items ms).length = items.length
    ∧ (stock_report items ms).map ReportRow.item_id = items.map ItemDoc.id := by
  constructor
  · simp [stock_report]
  · simp [stock_report, List.map_map]

/-- C9.  The stock report is a pure deterministic function of the item and
movement sets: equal inputs give equal output row sequences. -/
theorem stock_report_deterministic (items1 items2 : List ItemDoc)
    (ms1 ms2 : List MovementDoc) (hitems : items1 = items2)
    (hms : ms1 = ms2) :
    stock_report items1 ms1 = stock_report items2 ms2 := by
  rw [hitems, hms]

/-- Witness for C9 at a concrete input. -/
theorem stock_report_deterministic_witness :
    [w1Item] = [w1Item] ∧ w1Moves = w1Moves
    ∧ stock_report [w1Item] w1Moves = stock_report [w1Item] w1Moves :=
  ⟨rfl, rfl,
   stock_report_deterministic [w1Item] [w1Item] w1Moves w1Moves rfl rfl⟩

/-- Removing a single movement that the loop body skips leaves the whole
report unchanged. -/
lemma stock_report_drop_skipped (items : List ItemDoc)
    (ms1 ms2 : List MovementDoc) (m : MovementDoc)
    (hskip : ∀ q, applyMove q m = q) :
    stock_report items (ms1 ++ m :: ms2) = stock_report items (ms1 ++ ms2) := by
  simp only [stock_report]
  rw [List.foldl_append, List.foldl_append, List.foldl_cons, hskip]

/-- C8.  A movement whose `type` is neither `"in"` nor `"out"` is a no-op
for the stock report: deleting it from the movement list changes nothing,
wherever it occurs. -/
theorem unknown_type_noop (items : List ItemDoc) (ms1 ms2 : List MovementDoc)
    (m : MovementDoc) (hin : m.type ≠ some "in") (hout : m.type ≠ some "out") :
    stock_report items (ms1 ++ m :: ms2) = stock_report items (ms1 ++ ms2) := by
  refine stock_report_drop_skipped items ms1 ms2 m (fun q => ?_)
  rcases hm : m.item_id with _ | k
  · simp [applyMove, hm]
  · simp [applyMove, hm, hin, hout]

/-- Concrete movement with `type = "adjust"` for the C8 witness. -/
def w8Move : MovementDoc :=
  { item_id := some "a", type := some "adjust", qty := some 7,
    reason := some "adjust", ref_type := none, ref_id := none }

/-- Witness for C8 at a concrete input: an `"adjust"` movement between two
real movements changes nothing. -/
theorem unknown_type_noop_witness :
    w8Move.type ≠ some "in" ∧ w8Move.type ≠ some "out"
    ∧ stock_report [w1Item] (w1Moves.take 1 ++ w8Move :: w1Moves.drop 1)
        = stock_report [w1Item] (w1Moves.take 1 ++ w1Moves.drop 1) :=
  ⟨by decide, by decide,
   unknown_type_noop [w1Item] (w1Moves.take 1) (w1Moves.drop 1) w8Move
     (by decide) (by decide)⟩

/-- C10.  A movement whose `item_id` is falsy (absent, or the empty string)
is skipped before its `type` is examined: deleting it changes nothing, even
when its `type` is `"in"` or `"out"`. -/
theorem falsy_item_id_skipped (items : List ItemDoc)
    (ms1 ms2 : List MovementDoc) (m : MovementDoc)
    (hfalsy : m.item_id = none ∨ m.item_id = some "") :
    stock_report items (ms1 ++ m :: ms2) = stock_report items (ms1 ++ ms2) := by
  refine stock_report_drop_skipped items ms1 ms2 m (fun q => ?_)
  rcases hfalsy with h | h <;> simp [applyMove, h]

/-- Concrete `"in"` movement with an empty `item_id` for the C10 witness. -/
def w10Move : MovementDoc :=
  { item_id := some "", type := some "in", qty := some 9,
    reason := some "purchase", ref_type := some "purchase",
    ref_id := some "p9" }

/-- Witness for C10 at a concrete input: an `"in"` movement with empty
`item_id` changes nothing. -/
theorem falsy_item_id_skipped_witness :
    (w10Move.item_id = none ∨ w10Move.item_id = some "")
    ∧ stock_report [w1Item] ([] ++ w10Move :: w1Moves)
        = stock_report [w1Item] ([] ++ w1Moves) :=
  ⟨by decide,
   falsy_item_id_skipped [w1Item] [] w1Moves w10Move (by decide)⟩

/-- C3.  SKU uniqueness: when no stored item carries SKU `p1.sku`, creating
`p1` succeeds and returns the generated id; immediately creating a second
item with the same SKU against the resulting store fails with HTTP 400
(the DuplicateKey error, detail "SKU already exists"). -/
theorem sku_uniqueness (st : Store) (p1 p2 : Item)
    (hsku : p2.sku = p1.sku)
    (hno : st.items.all (fun kv => kv.2.sku != p1.sku) = true) :
    create_item st p1
      = .ok ({ st with items := st.items ++ [(genId st.nextId, p1)],
                       nextId := st.nextId + 1 }, genId st.nextId)
    ∧ create_item { st with items := st.items ++ [(genId st.nextId, p1)],
                            nextId := st.nextId + 1 } p2
      = .error ⟨400, "SKU already exists"⟩ := by
  have hany : st.items.any (fun kv => kv.2.sku == p1.sku) = false := by
    rw [List.any_eq_false]
    intro x hx
    have hx2 := List.all_eq_true.mp hno x hx
    simpa using hx2
  constructor
  · simp [create_item, hany]
  · simp [create_item, List.any_append, hany, hsku]

/-- Concrete item payload for the C3 witness. -/
def w3Item : Item := { name := "Bolt", sku := "B1" }

/-- Second concrete payload with the same SKU for the C3 witness. -/
def w3Dup : Item := { name := "Bolt copy", sku := "B1" }

/-- Witness for C3 at a concrete input: an empty store, then two creations
with the same SKU. -/
theorem sku_uniqueness_witness :
    w3Dup.sku = w3Item.sku
    ∧ (({} : Store).items.all (fun kv => kv.2.sku != w3Item.sku) = true)
    ∧ create_item {} w3Item
        = .ok ({ ({} : Store) with
                   items := ({} : Store).items ++ [(genId ({} : Store).nextId, w3Item)],
                   nextId := ({} : Store).nextId + 1 }, genId ({} : Store).nextId)
    ∧ create_item { ({} : Store) with
                      items := ({} : Store).items ++ [(genId ({} : Store).nextId, w3Item)],
                      nextId := ({} : Store).nextId + 1 } w3Dup
        = .error ⟨400, "SKU already exists"⟩ := by
  refine ⟨by decide, by decide, ?_⟩
  exact sku_uniqueness {} w3Item w3Dup (by decide) (by decide)

/-- C6.  A purchase with zero lines is still persisted (its generated id is
returned and the document is appended) but creates no stock movement, and
the stock report is unchanged. -/
theorem zero_line_purchase (st : Store) (p : Purchase)
    (hempty : p.items = []) :
    (create_purchase st p).2 = genId st.nextId
    ∧ (create_purchase st p).1.purchases
        = st.purchases ++ [(genId st.nextId, p)]
    ∧ (create_purchase st p).1.movements = st.movements
    ∧ stock_report_endpoint (create_purchase st p).1
        = stock_report_endpoint st := by
  refine ⟨rfl, ?_, ?_, ?_⟩ <;>
    simp [create_purchase, hempty, stock_report_endpoint, storeItemDocs,
      storeMovementDocs]

/-- Concrete zero-line purchase for the C6 witness. -/
def w6Purchase : Purchase := { vendor_id := "v1", items := [] }

/-- Witness for C6 at a concrete input: a zero-line purchase against a
store holding one item. -/
theorem zero_line_purchase_witness :
    w6Purchase.items = []
    ∧ ((create_purchase { items := [("a", w3Item)] } w6Purchase).2
          = genId ({ items := [("a", w3Item)] } : Store).nextId
       ∧ (create_purchase { items := [("a", w3Item)] } w6Purchase).1.purchases
          = ({ items := [("a", w3Item)] } : Store).purchases
            ++ [(genId ({ items := [("a", w3Item)] } : Store).nextId, w6Purchase)]
       ∧ (create_purchase { items := [("a", w3Item)] } w6Purchase).1.movements
          = ({ items := [("a", w3Item)] } : Store).movements
       ∧ stock_report_endpoint (create_purchase { items := [("a", w3Item)] } w6Purchase).1
          = stock_report_endpoint { items := [("a", w3Item)] }) :=
  ⟨rfl, zero_line_purchase { items := [("a", w3Item)] } w6Purchase rfl⟩

lemma sumIn_append (k : String) (ms1 ms2 : List MovementDoc) :
    sumIn k (ms1 ++ ms2) = sumIn k ms1 + sumIn k ms2 := by
  induction ms1 with
  | nil => simp [sumIn]
  | cons m ms ih =>
    rw [List.cons_append]
    simp only [sumIn]
    rw [ih]; ring

lemma sumOut_append (k : String) (ms1 ms2 : List MovementDoc) :
    sumOut k (ms1 ++ ms2) = sumOut k ms1 + sumOut k ms2 := by
  induction ms1 with
  | nil => simp [sumOut]
  | cons m ms ih =>
    rw [List.cons_append]
    simp only [sumOut]
    rw [ih]; ring

lemma sumIn_eq_zero (k : String) (ms : List MovementDoc)
    (h : ∀ m ∈ ms, m.item_id ≠ some k) : sumIn k ms = 0 := by
  induction ms with
  | nil => rfl
  | cons m ms ih =>
    have hm := h m (List.mem_cons_self _ _)
    rw [sumIn, if_neg (fun hc => hm hc.1),
      ih (fun x hx => h x (List.mem_cons_of_mem _ hx))]
    ring

lemma sumOut_eq_zero (k : String) (ms : List MovementDoc)
    (h : ∀ m ∈ ms, m.item_id ≠ some k) : sumOut k ms = 0 := by
  induction ms with
  | nil => rfl
  | cons m ms ih =>
    have hm := h m (List.mem_cons_self _ _)
    rw [sumOut, if_neg (fun hc => hm hc.1),
      ih (fun x hx => h x (List.mem_cons_of_mem _ hx))]
    ring

/-- C7 (amended).  Negative on-hand is allowed: for an item with opening
stock 0 and no prior movement referencing it, a sale of 100 units is
accepted (the handler returns the generated id, there is no stock-level
check) and the subsequent stock report shows `on_hand = -100` for it. -/
theorem negative_on_hand (st : Store) (idv : String) (it : Item) (s : Sale)
    (line : SaleItem)
    (hmem : (idv, it) ∈ st.items)
    (hnd : (st.items.map Prod.fst).Nodup)
    (hne : idv ≠ "")
    (hopen : it.opening_stock = 0)
    (hnomove : ∀ mv ∈ st.movements, (mv.2).item_id ≠ some idv)
    (hlines : s.items = [line])
    (hitem : line.item_id = idv)
    (hqty : line.qty = 100) :
    (create_sale st s).2 = genId st.nextId
    ∧ ({ item_id := idv, name := some it.name, sku := some it.sku,
         on_hand := -100, unit := it.unit } : ReportRow)
        ∈ stock_report_endpoint (create_sale st s).1 := by
  constructor
  · rfl
  · have hitems : (create_sale st s).1.items = st.items := by
      simp only [create_sale]
      exact (foldl_addMovement_invariant _ _ _).1
    have hmoves : ((create_sale st s).1.movements).map Prod.snd
        = st.movements.map Prod.snd
          ++ [{ item_id := some idv, type := some "out", qty := some 100,
                reason := some "sale", ref_type := some "sale",
                ref_id := some (genId st.nextId) }] := by
      simp only [create_sale]
      rw [foldl_addMovement_moves]
      simp [hlines, hitem, hqty]
    have hpre : ∀ x ∈ st.movements.map Prod.snd, x.item_id ≠ some idv := by
      intro x hx
      rcases List.mem_map.mp hx with ⟨mv, hmv, rfl⟩
      exact hnomove mv hmv
    have hdmem : ({ id := idv, name := some it.name, sku := some it.sku,
                    opening_stock := some it.opening_stock,
                    unit := some it.unit } : ItemDoc)
        ∈ storeItemDocs (create_sale st s).1 := by
      rw [storeItemDocs, hitems]
      exact List.mem_map_of_mem _ hmem
    have hdnd : ((storeItemDocs (create_sale st s).1).map ItemDoc.id).Nodup := by
      rw [storeItemDocs, hitems, List.map_map]
      simpa [Function.comp] using hnd
    have hSin : sumIn idv (storeMovementDocs (create_sale st s).1) = 0 := by
      rw [storeMovementDocs, hmoves, sumIn_append, sumIn_eq_zero idv _ hpre]
      simp [sumIn]
    have hSout : sumOut idv (storeMovementDocs (create_sale st s).1) = 100 := by
      rw [storeMovementDocs, hmoves, sumOut_append, sumOut_eq_zero idv _ hpre]
      simp [sumOut]
    have hrow := row_mem_stock_report (storeItemDocs (create_sale st s).1)
      (storeMovementDocs (create_sale st s).1) _ hdmem hdnd hne
    rw [stock_report_endpoint]
    have heq : ({ item_id := idv, name := some it.name, sku := some it.sku,
                  on_hand := round2 ((some it.opening_stock).getD 0
                    + sumIn idv (storeMovementDocs (create_sale st s).1)
                    - sumOut idv (storeMovementDocs (create_sale st s).1)),
                  unit := (some it.unit).getD "pcs" } : ReportRow)
        = { item_id := idv, name := some it.name, sku := some it.sku,
            on_hand := -100, unit := it.unit } := by
      simp only [hSin, hSout, hopen, Option.getD_some]
      norm_num [round2, roundHalfEven]
    exact heq ▸ hrow

/-- Concrete item for the C7 witness and counterexample. -/
def c7Item : Item := { name := "Widget", sku := "W1", opening_stock := 0 }

/-- Concrete sale of 100 units of item `"a"` for C7. -/
def c7Sale : Sale :=
  { items := [{ item_id := "a", qty := 100, price := 1 }] }

/-- Witness for C7 (amended) at a concrete input: a fresh item with
opening stock 0, then a 100-unit sale. -/
theorem negative_on_hand_witness :
    ("a", c7Item) ∈ ({ items := [("a", c7Item)] } : Store).items
    ∧ c7Item.opening_stock = 0
    ∧ ((create_sale { items := [("a", c7Item)] } c7Sale).2
          = genId ({ items := [("a", c7Item)] } : Store).nextId
       ∧ ({ item_id := "a", name := some c7Item.name, sku := some c7Item.sku,
            on_hand := -100, unit := c7Item.unit } : ReportRow)
          ∈ stock_report_endpoint
              (create_sale { items := [("a", c7Item)] } c7Sale).1) :=
  ⟨by decide, by decide,
   negative_on_hand { items := [("a", c7Item)] } "a" c7Item c7Sale
     { item_id := "a", qty := 100, price := 1 }
     (by decide) (by decide) (by decide) (by decide)
     (by intro mv h; cases h) rfl rfl rfl⟩

/-- Concrete store for the C7 counterexample: item `"a"` with opening
stock 0 and one prior `"out"` movement of 5 (so no prior `"in"`
movement, as the claim requires). -/
def c7CexStore : Store :=
  { items := [("a", c7Item)],
    movements := [("m1",
      { item_id := some "a", type := some "out", qty := some 5,
        reason := some "sale", ref_type := some "sale",
        ref_id := some "s0" })] }

/-- Counterexample to C7 as stated: with opening stock 0 and no prior
`"in"` movement — but one prior `"out"` movement of 5 — a sale of 100
units yields `on_hand = -105`, not `-100`. -/
theorem negative_on_hand_cex :
    c7Item.opening_stock = 0
    ∧ c7CexStore.movements.map (fun mv => (mv.2).type) = [some "out"]
    ∧ (stock_report_endpoint (create_sale c7CexStore c7Sale).1).map
        ReportRow.on_hand = [-105]
    ∧ (-105 : ℚ) ≠ -100 := by
  refine ⟨by decide, by decide, ?_, by norm_num⟩
  simp [c7CexStore, c7Item, c7Sale, create_sale, stock_report_endpoint,
    storeItemDocs, storeMovementDocs, stock_report, applyMove, updMap]
  norm_num [round2, roundHalfEven]

/-- C5 (amended).  The helper `to_oid` does reject a malformed identifier
with HTTP 400, but no create handler invokes it: `create_purchase` and
`create_sale` accept and persist any reference-identifier strings and
return the generated id, with no error path. -/
theorem invalid_id_amended :
    (∀ s : String, isValidOid s = false →
        to_oid s = .error ⟨400, "Invalid id"⟩)
    ∧ (∀ (st : Store) (p : Purchase),
        (create_purchase st p).2 = genId st.nextId
        ∧ ((create_purchase st p).1.purchases).map Prod.snd
            = st.purchases.map Prod.snd ++ [p])
    ∧ (∀ (st : Store) (s : Sale),
        (create_sale st s).2 = genId st.nextId
        ∧ ((create_sale st s).1.sales).map Prod.snd
            = st.sales.map Prod.snd ++ [s]) := by
  refine ⟨fun s h => by simp [to_oid, h], fun st p => ⟨rfl, ?_⟩,
    fun st s => ⟨rfl, ?_⟩⟩
  · simp only [create_purchase]
    rw [(foldl_addMovement_invariant _ _ _).2.1]
    simp
  · simp only [create_sale]
    rw [(foldl_addMovement_invariant _ _ _).2.2]
    simp

/-- Concrete purchase with malformed reference ids for C5. -/
def c5Purchase : Purchase :=
  { vendor_id := "not-an-objectid",
    items := [{ item_id := "also!bad", qty := 1, cost := 2 }] }

/-- Witness for C5 (amended) at a concrete input. -/
theorem invalid_id_amended_witness :
    isValidOid "not-an-objectid" = false
    ∧ to_oid "not-an-objectid" = .error ⟨400, "Invalid id"⟩
    ∧ (create_purchase {} c5Purchase).2 = genId ({} : Store).nextId :=
  ⟨by decide, invalid_id_amended.1 "not-an-objectid" (by decide),
   (invalid_id_amended.2.1 {} c5Purchase).1⟩

/-- Counterexample to C5 as stated: a purchase whose `vendor_id` (and line
`item_id`) is malformed — `to_oid` would reject it with HTTP 400 — is
nevertheless accepted: the handler returns the generated id and persists
the purchase, raising no error. -/
theorem invalid_id_not_rejected_cex :
    isValidOid c5Purchase.vendor_id = false
    ∧ to_oid c5Purchase.vendor_id = .error ⟨400, "Invalid id"⟩
    ∧ isValidOid "also!bad" = false
    ∧ (create_purchase {} c5Purchase).2 = genId 0
    ∧ ((create_purchase {} c5Purchase).1.purchases).map Prod.snd
        = [c5Purchase] := by
  have h : isValidOid c5Purchase.vendor_id = false := by decide
  refine ⟨h, by simp [to_oid, h], by decide, rfl, ?_⟩
  simp [create_purchase, c5Purchase]

end ERP
